import Mathlib

/-!
Verification development for the BackupPeer peer core.

The JavaScript sources are embedded shallowly: JS Map objects become
association lists, JS numbers holding byte counts or counters become Nat,
timestamps become Int, and scores or averages become Rat. Cryptographic
primitives (SHA-256, Ed25519, the NaCl box) are taken as function
parameters, so every theorem about them holds for an arbitrary
implementation of the primitive; the structural code around them is
embedded literally.
-/

namespace BackupPeer

/-- Association-list lookup, modelling JS Map.get (undefined becomes none). -/
def alistGet {α : Type} (m : List (String × α)) (k : String) : Option α :=
  match m with
  | [] => none
  | (k0, v) :: rest => if k0 = k then some v else alistGet rest k

/-- Association-list update, modelling JS Map.set (overwrite or append). -/
def alistSet {α : Type} (m : List (String × α)) (k : String) (v : α) : List (String × α) :=
  match m with
  | [] => [(k, v)]
  | (k0, v0) :: rest => if k0 = k then (k, v) :: rest else (k0, v0) :: alistSet rest k v

/-- Association-list removal, modelling JS Map.delete. -/
def alistRemove {α : Type} (m : List (String × α)) (k : String) : List (String × α) :=
  match m with
  | [] => []
  | (k0, v0) :: rest => if k0 = k then rest else (k0, v0) :: alistRemove rest k

/-! ## Storage allocation ledger (class StorageAllocation) -/

/-- Per-peer ledger entry: the allocations map value { offered, used, backups, timestamp }. -/
structure PeerAlloc where
  offered : Nat
  used : Nat
  backups : List (String × Nat)
  timestamp : Int
  deriving Repr, DecidableEq

/-- Ledger state: the this.allocation object of StorageAllocation. -/
structure AllocationState where
  maxStorageOffered : Nat
  storageOffered : Nat
  storageUsed : Nat
  allocations : List (String × PeerAlloc)
  deriving Repr, DecidableEq

/-- Initial ledger state set up in the StorageAllocation constructor. -/
def initialAllocationState : AllocationState :=
  { maxStorageOffered := 0, storageOffered := 0, storageUsed := 0, allocations := [] }

/-- Embeds StorageAllocation.getAllocatedToPeer. -/
def getAllocatedToPeer (s : AllocationState) (peerId : String) : Nat :=
  match alistGet s.allocations peerId with
  | some a => a.offered
  | none => 0

/-- Result of canAcceptBackup: admit, or one of the two structured rejection reasons. -/
inductive AcceptResult where
  | accepted
  | insufficientAllocation
  | capacityReached
  deriving Repr, DecidableEq

/-- Embeds StorageAllocation.canAcceptBackup: the 1:1-ratio check, then the capacity check. -/
def canAcceptBackup (s : AllocationState) (requestedBytes : Nat) (fromPeerId : String) :
    AcceptResult :=
  if s.storageUsed + requestedBytes > s.storageOffered + getAllocatedToPeer s fromPeerId then
    .insufficientAllocation
  else if s.storageOffered ≥ s.maxStorageOffered then
    .capacityReached
  else
    .accepted

/-- Embeds StorageAllocation.allocateStorageToPeer: bumps the peer entry offered and used
and the global storageOffered (the source does not touch the global storageUsed here). -/
def allocateStorageToPeer (s : AllocationState) (peerId : String) (bytes : Nat)
    (backupId : String) (now : Int) : AllocationState :=
  let existing := (alistGet s.allocations peerId).getD
    { offered := 0, used := 0, backups := [], timestamp := now }
  let updated : PeerAlloc :=
    { offered := existing.offered + bytes
      used := existing.used + bytes
      backups := existing.backups ++ [(backupId, bytes)]
      timestamp := now }
  { s with allocations := alistSet s.allocations peerId updated
           storageOffered := s.storageOffered + bytes }

/-- Embeds StorageAllocation.recordStorageUsed: bumps the peer entry used and the
global storageUsed. -/
def recordStorageUsed (s : AllocationState) (peerId : String) (bytes : Nat) (now : Int) :
    AllocationState :=
  let existing := (alistGet s.allocations peerId).getD
    { offered := 0, used := 0, backups := [], timestamp := now }
  let updated : PeerAlloc := { existing with used := existing.used + bytes, timestamp := now }
  { s with allocations := alistSet s.allocations peerId updated
           storageUsed := s.storageUsed + bytes }

/-- Embeds StorageAllocation.releaseAllocation. Math.max(0, a - b) on nonnegative
JS numbers is truncated subtraction on Nat. -/
def releaseAllocation (s : AllocationState) (peerId : String) (bytes : Nat)
    (isOffered : Bool) (now : Int) : AllocationState :=
  match alistGet s.allocations peerId with
  | none => s
  | some existing =>
    let updated : PeerAlloc :=
      if isOffered then
        { existing with offered := existing.offered - bytes, timestamp := now }
      else
        { existing with used := existing.used - bytes, timestamp := now }
    let s :=
      if isOffered then
        { s with storageOffered := s.storageOffered - bytes }
      else
        { s with storageUsed := s.storageUsed - bytes }
    if updated.offered = 0 ∧ updated.used = 0 then
      { s with allocations := alistRemove s.allocations peerId }
    else
      { s with allocations := alistSet s.allocations peerId updated }

/-- Structured forms of the three issue strings produced by validateAllocation. -/
inductive AllocationIssue where
  | totalOfferedMismatch (expected got : Nat)
  | totalUsedMismatch (expected got : Nat)
  | usedExceedsOffered (used offered : Nat)
  deriving Repr, DecidableEq

/-- Result object of validateAllocation: { valid, issues }. -/
structure ValidationResult where
  valid : Bool
  issues : List AllocationIssue
  deriving Repr, DecidableEq

/-- Embeds StorageAllocation.validateAllocation: per-peer sums must equal the globals
and storageUsed must not exceed storageOffered. -/
def validateAllocation (s : AllocationState) : ValidationResult :=
  let sumOffered := (s.allocations.map (fun kv => kv.2.offered)).sum
  let sumUsed := (s.allocations.map (fun kv => kv.2.used)).sum
  let issues₁ : List AllocationIssue :=
    if sumOffered ≠ s.storageOffered then
      [.totalOfferedMismatch sumOffered s.storageOffered]
    else []
  let issues₂ : List AllocationIssue :=
    if sumUsed ≠ s.storageUsed then
      issues₁ ++ [.totalUsedMismatch sumUsed s.storageUsed]
    else issues₁
  let issues : List AllocationIssue :=
    if s.storageUsed > s.storageOffered then
      issues₂ ++ [.usedExceedsOffered s.storageUsed s.storageOffered]
    else issues₂
  { valid := issues.isEmpty, issues := issues }

/-! ## Rate limiter (class RateLimiter) and the inbound dispatch path -/

/-- Rate limiter state: configuration plus the three maps. The requests map also
holds the per-message-type keys (peerId-messageType), as in the source. -/
structure RateLimiterState where
  maxRequests : Nat
  windowMs : Int
  maxBurst : Nat
  burstWindowMs : Int
  requests : List (String × List Int)
  bursts : List (String × List Int)
  bannedPeers : List (String × Int)
  deriving Repr, DecidableEq

/-- Rate limiter configured as in the P2PConnection constructor
(100 per 60 s coarse window, 20 per 1 s burst window). -/
def p2pRateLimiter : RateLimiterState :=
  { maxRequests := 100, windowMs := 60000, maxBurst := 20, burstWindowMs := 1000
    requests := [], bursts := [], bannedPeers := [] }

/-- Embeds RateLimiter.checkBurstLimit. -/
def checkBurstLimit (s : RateLimiterState) (peerId : String) (now : Int) : Bool :=
  let burstRequests := (alistGet s.bursts peerId).getD []
  let recentBursts := burstRequests.filter (fun t => now - t < s.burstWindowMs)
  recentBursts.length < s.maxBurst

/-- Embeds RateLimiter.checkWindowLimit. -/
def checkWindowLimit (s : RateLimiterState) (peerId : String) (now : Int) : Bool :=
  let peerRequests := (alistGet s.requests peerId).getD []
  let recentRequests := peerRequests.filter (fun t => now - t < s.windowMs)
  recentRequests.length < s.maxRequests

/-- Embeds the messageLimits table of RateLimiter.checkMessageTypeLimit. -/
def messageLimits (messageType : String) : Option (Nat × Int) :=
  if messageType = "file_chunk" then some (200, 60000)
  else if messageType = "ping" then some (60, 60000)
  else if messageType = "storage_challenge" then some (10, 60000)
  else if messageType = "peer_identity" then some (5, 60000)
  else if messageType = "file_start" then some (20, 60000)
  else none

/-- Embeds RateLimiter.checkMessageTypeLimit, which records the request under the
peerId-messageType key when it passes. -/
def checkMessageTypeLimit (s : RateLimiterState) (peerId messageType : String) (now : Int) :
    Bool × RateLimiterState :=
  match messageLimits messageType with
  | none => (true, s)
  | some (maxCount, window) =>
    let key := peerId ++ "-" ++ messageType
    let typeRequests := (alistGet s.requests key).getD []
    let recentRequests := typeRequests.filter (fun t => now - t < window)
    if recentRequests.length ≥ maxCount then
      (false, s)
    else
      (true, { s with requests := alistSet s.requests key (recentRequests ++ [now]) })

/-- Embeds RateLimiter.recordRequest. -/
def recordRequest (s : RateLimiterState) (peerId : String) (timestamp : Int) :
    RateLimiterState :=
  let peerRequests := (alistGet s.requests peerId).getD []
  let burstRequests := (alistGet s.bursts peerId).getD []
  { s with requests := alistSet s.requests peerId (peerRequests ++ [timestamp])
           bursts := alistSet s.bursts peerId (burstRequests ++ [timestamp]) }

/-- Embeds RateLimiter.isAllowed: burst check, window check, per-type check,
then record; note that it never consults bannedPeers. -/
def isAllowed (s : RateLimiterState) (peerId messageType : String) (now : Int) :
    Bool × RateLimiterState :=
  if ¬ checkBurstLimit s peerId now then (false, s)
  else if ¬ checkWindowLimit s peerId now then (false, s)
  else
    match checkMessageTypeLimit s peerId messageType now with
    | (false, s₁) => (false, s₁)
    | (true, s₁) => (true, recordRequest s₁ peerId now)

/-- Embeds RateLimiter.banPeer: records peerId -> now + durationMs
(the source also schedules an asynchronous auto-unban timer). -/
def banPeer (s : RateLimiterState) (peerId : String) (durationMs now : Int) :
    RateLimiterState :=
  { s with bannedPeers := alistSet s.bannedPeers peerId (now + durationMs) }

/-- Embeds RateLimiter.isBanned: true exactly when an entry exists whose expiry has
not passed (the source also deletes an expired entry as a side effect). -/
def isBanned (s : RateLimiterState) (peerId : String) (now : Int) : Bool :=
  match alistGet s.bannedPeers peerId with
  | none => false
  | some banUntil => ¬ (now > banUntil)

/-- Embeds the admission decision of the inbound dispatch path: the data handler in
P2PConnection.initializeWebRTC drops a message exactly when rateLimiter.isAllowed
returns false; it performs no other admission check (in particular it never calls
isBanned, which no code outside RateLimiter calls at all). -/
def dispatchAllows (s : RateLimiterState) (senderId messageType : String) (now : Int) :
    Bool × RateLimiterState :=
  isAllowed s senderId messageType now

/-! ## Reputation engine (class ReputationSystem) -/

/-- Peer reputation record as produced by migrateReputationData. JS numbers that hold
averages and scores are modelled as Rat, counters as Nat, timestamps as Int; the
uptimeHistory entries { timestamp, available } become (Int × Bool) pairs. -/
structure PeerReputation where
  peerId : String
  firstSeen : Int
  lastSeen : Int
  totalConnections : Nat
  successfulConnections : Nat
  failedConnections : Nat
  averageResponseTime : Rat
  totalChallenges : Nat
  successfulChallenges : Nat
  failedChallenges : Nat
  averageVerificationTime : Rat
  dataIntegrityScore : Rat
  corruptedFiles : Nat
  totalFilesTransferred : Nat
  uptimeScore : Rat
  uptimeHistory : List (Int × Bool)
  overallScore : Rat
  trustLevel : String
  isBlacklisted : Bool
  blacklistReason : Option String
  deriving Repr, DecidableEq

/-- Embeds the record getPeerReputation creates for a never-seen peer: all defaults
of migrateReputationData applied to { peerId, firstSeen: now, lastSeen: now }. -/
def freshReputation (peerId : String) (now : Int) : PeerReputation :=
  { peerId := peerId, firstSeen := now, lastSeen := now
    totalConnections := 0, successfulConnections := 0, failedConnections := 0
    averageResponseTime := 0
    totalChallenges := 0, successfulChallenges := 0, failedChallenges := 0
    averageVerificationTime := 0
    dataIntegrityScore := 1, corruptedFiles := 0, totalFilesTransferred := 0
    uptimeScore := 1, uptimeHistory := []
    overallScore := 1/2, trustLevel := "unknown"
    isBlacklisted := false, blacklistReason := none }

/-- Embeds ReputationSystem.calculateResponseTimeScore. -/
def calculateResponseTimeScore (avgResponseTime : Rat) : Rat :=
  if avgResponseTime = 0 then 1/2
  else min 1 (max 0 (1 - avgResponseTime / 30000))

/-- Embeds ReputationSystem.getTrustLevel with the constructor thresholds
(trusted 0.8, acceptable 0.6, suspicious 0.4). -/
def getTrustLevel (score : Rat) : String :=
  if score ≥ 4/5 then "trusted"
  else if score ≥ 3/5 then "acceptable"
  else if score ≥ 2/5 then "suspicious"
  else "untrusted"

/-- Connection component score computed inside updateOverallScore. -/
def connectionScore (r : PeerReputation) : Rat :=
  if r.totalConnections > 0 then
    (r.successfulConnections : Rat) / (r.totalConnections : Rat)
  else 1/2

/-- Verification component score computed inside updateOverallScore. -/
def verificationScore (r : PeerReputation) : Rat :=
  if r.totalChallenges > 0 then
    (r.successfulChallenges : Rat) / (r.totalChallenges : Rat)
  else 1/2

/-- Weighted sum computed by updateOverallScore: the 0.3 uptime weight multiplies the
connection score, the 0.2 responseTime weight the response-time score, the 0.3
verificationSuccess weight the verification score, and the 0.2 dataIntegrity weight
the stored dataIntegrityScore. -/
def codeOverallFormula (r : PeerReputation) : Rat :=
  connectionScore r * (3/10)
    + calculateResponseTimeScore r.averageResponseTime * (1/5)
    + verificationScore r * (3/10)
    + r.dataIntegrityScore * (1/5)

/-- Embeds ReputationSystem.blacklistPeer applied to a record. -/
def blacklistPeer (r : PeerReputation) (reason : String) : PeerReputation :=
  { r with isBlacklisted := true, blacklistReason := some reason
           overallScore := 0, trustLevel := "blacklisted" }

/-- Embeds ReputationSystem.updateOverallScore applied to a record: store the
weighted score and trust level, then auto-blacklist when the score falls below
the 0.2 threshold and the peer is not yet blacklisted. -/
def updateOverallScore (r : PeerReputation) : PeerReputation :=
  let score := codeOverallFormula r
  let r₁ := { r with overallScore := score, trustLevel := getTrustLevel score }
  if score < 1/5 ∧ r.isBlacklisted = false then
    blacklistPeer r₁ "Automatic blacklist due to low reputation"
  else r₁

/-- Reputation events: the four record-entry points of ReputationSystem. -/
inductive RepEvent where
  | connection (success : Bool) (responseTime : Rat) (now : Int)
  | verification (success : Bool) (responseTime : Rat)
  | fileTransfer (success : Bool) (filesCount corruptedCount : Nat)
  | uptime (wasAvailable : Bool) (now : Int)
  deriving Repr, DecidableEq

/-- Counter mutations of ReputationSystem.recordConnection before its final
updateOverallScore call. -/
def recordConnectionCounters (r : PeerReputation) (success : Bool) (responseTime : Rat)
    (now : Int) : PeerReputation :=
  let r := { r with lastSeen := now, totalConnections := r.totalConnections + 1 }
  if success then
    let r := { r with successfulConnections := r.successfulConnections + 1 }
    if responseTime > 0 then
      { r with averageResponseTime :=
          (r.averageResponseTime * ((r.totalConnections : Rat) - 1) + responseTime)
            / (r.totalConnections : Rat) }
    else r
  else
    { r with failedConnections := r.failedConnections + 1 }

/-- Counter mutations of ReputationSystem.recordVerification before its final
updateOverallScore call. -/
def recordVerificationCounters (r : PeerReputation) (success : Bool) (responseTime : Rat) :
    PeerReputation :=
  let r := { r with totalChallenges := r.totalChallenges + 1 }
  if success then
    let r := { r with successfulChallenges := r.successfulChallenges + 1 }
    if responseTime > 0 then
      { r with averageVerificationTime :=
          (r.averageVerificationTime * ((r.totalChallenges : Rat) - 1) + responseTime)
            / (r.totalChallenges : Rat) }
    else r
  else
    { r with failedChallenges := r.failedChallenges + 1 }

/-- Counter mutations of ReputationSystem.recordFileTransfer before its final
updateOverallScore call (the success flag is unused in the source as well). -/
def recordFileTransferCounters (r : PeerReputation) (filesCount corruptedCount : Nat) :
    PeerReputation :=
  let r := { r with totalFilesTransferred := r.totalFilesTransferred + filesCount
                    corruptedFiles := r.corruptedFiles + corruptedCount }
  if r.totalFilesTransferred > 0 then
    { r with dataIntegrityScore :=
        1 - (r.corruptedFiles : Rat) / (r.totalFilesTransferred : Rat) }
  else r

/-- History and score mutations of ReputationSystem.recordUptime before its final
updateOverallScore call: cap the history at 100 (shift removes the oldest entry),
push the new sample, then average the availability of the last 50 entries. -/
def recordUptimeCounters (r : PeerReputation) (wasAvailable : Bool) (now : Int) :
    PeerReputation :=
  let history₀ := if r.uptimeHistory.length ≥ 100 then r.uptimeHistory.drop 1
                  else r.uptimeHistory
  let history := history₀ ++ [(now, wasAvailable)]
  let recentChecks := history.drop (history.length - 50)
  let upCount := (recentChecks.filter (fun c => c.2)).length
  let score := if recentChecks.length > 0 then
      (upCount : Rat) / (recentChecks.length : Rat)
    else 1
  { r with uptimeHistory := history, uptimeScore := score }

/-- Applies one reputation event to a record: the counter mutations of the matching
record-entry point followed by updateOverallScore, as in the source. -/
def applyEvent (r : PeerReputation) (e : RepEvent) : PeerReputation :=
  match e with
  | .connection success responseTime now =>
      updateOverallScore (recordConnectionCounters r success responseTime now)
  | .verification success responseTime =>
      updateOverallScore (recordVerificationCounters r success responseTime)
  | .fileTransfer _ filesCount corruptedCount =>
      updateOverallScore (recordFileTransferCounters r filesCount corruptedCount)
  | .uptime wasAvailable now =>
      updateOverallScore (recordUptimeCounters r wasAvailable now)

/-- Applies a sequence of reputation events in order. -/
def applyEvents (r : PeerReputation) (es : List RepEvent) : PeerReputation :=
  es.foldl applyEvent r

/-- Modelled from the claim wording: overall score with the uptime component taken as
the rolling average over the last 50 samples of the uptime history, response-time as
max(0, 1 - avg over 30000), verification as successful over total (1/2 when total is 0)
and integrity as 1 - corrupted over transferred (1 when transferred is 0). -/
def specUptimeRollingAverage (r : PeerReputation) : Rat :=
  let recent := r.uptimeHistory.drop (r.uptimeHistory.length - 50)
  if recent.length > 0 then
    ((recent.filter (fun c => c.2)).length : Rat) / (recent.length : Rat)
  else 1

/-- Modelled from the claim wording: the integrity component from the final counters. -/
def specIntegrityScore (r : PeerReputation) : Rat :=
  if r.totalFilesTransferred > 0 then
    1 - (r.corruptedFiles : Rat) / (r.totalFilesTransferred : Rat)
  else 1

/-- Modelled from the claim wording of C1: the asserted overall-score formula,
using the rolling uptime average as the 0.3-weighted first component. -/
def specOverallFormula (r : PeerReputation) : Rat :=
  specUptimeRollingAverage r * (3/10)
    + max 0 (1 - r.averageResponseTime / 30000) * (1/5)
    + verificationScore r * (3/10)
    + specIntegrityScore r * (1/5)

/-- Reputation map state of the ReputationSystem (peers Map). -/
def RepMap : Type := List (String × PeerReputation)

/-- Embeds ReputationSystem.getPeerReputation: create-on-miss, return the record and
the possibly extended map. -/
def getPeerReputation (peers : RepMap) (peerId : String) (now : Int) :
    PeerReputation × RepMap :=
  match alistGet peers peerId with
  | some r => (r, peers)
  | none =>
    let fresh := freshReputation peerId now
    (fresh, alistSet peers peerId fresh)

/-- Structured form of the isPeerAcceptable result. -/
inductive Acceptability where
  | acceptable
  | rejectedBlacklisted
  | rejectedScoreTooLow (score threshold : Rat)
  deriving Repr, DecidableEq

/-- Embeds ReputationSystem.isPeerAcceptable. The JS expression
minScore OR thresholds.acceptable yields 0.6 both for a missing minScore and for a
zero minScore (0 is falsy). -/
def isPeerAcceptable (peers : RepMap) (peerId : String) (minScore : Option Rat)
    (now : Int) : Acceptability × RepMap :=
  let (r, peers₁) := getPeerReputation peers peerId now
  if r.isBlacklisted then (.rejectedBlacklisted, peers₁)
  else
    let threshold := match minScore with
      | some m => if m = 0 then 3/5 else m
      | none => 3/5
    if r.overallScore < threshold then (.rejectedScoreTooLow r.overallScore threshold, peers₁)
    else (.acceptable, peers₁)

/-! ## Storage verification protocol (class StorageVerification) -/

/-- Block entry of a random_blocks storage proof. -/
structure BlockProofEntry where
  index : Nat
  hash : String
  size : Nat
  deriving Repr, DecidableEq

/-- File entry of a file_hash storage proof. -/
structure FileProofEntry where
  index : Nat
  name : String
  hash : String
  size : Nat
  deriving Repr, DecidableEq

/-- Storage challenge, with the kind kept as the wire string and the kind-specific
fields flattened (absent fields are unused by verifyProof for the other kinds). -/
structure StorageChallenge where
  ctype : String
  blockIndices : List Nat
  fileIndices : List Nat
  nonce : String
  deriving Repr, DecidableEq

/-- Storage proof message body. Option models absent JS fields; err models
proof.error. -/
structure StorageProof where
  err : Option String
  blocks : Option (List BlockProofEntry)
  files : Option (List FileProofEntry)
  metadataHash : Option String
  nonce : String
  deriving Repr, DecidableEq

/-- JS truthiness of an optional string (undefined and the empty string are falsy). -/
def strTruthy : Option String → Bool
  | none => false
  | some s => s ≠ ""

/-- JS truthiness of an optional array (any array, even empty, is truthy). -/
def listTruthy {α : Type} : Option (List α) → Bool
  | none => false
  | some _ => true

/-- Embeds StorageVerification.verifyProof: an error proof fails; random_blocks and
file_hash check only that the entry count equals the challenged index count;
metadata_proof checks only that some hash is present and the nonce echoes. -/
def verifyProof (challenge : StorageChallenge) (pf : StorageProof) : Bool :=
  if strTruthy pf.err then false
  else if challenge.ctype = "random_blocks" then
    listTruthy pf.blocks && ((pf.blocks.getD []).length = challenge.blockIndices.length : Bool)
  else if challenge.ctype = "file_hash" then
    listTruthy pf.files && ((pf.files.getD []).length = challenge.fileIndices.length : Bool)
  else if challenge.ctype = "metadata_proof" then
    strTruthy pf.metadataHash && (pf.nonce = challenge.nonce : Bool)
  else false

/-- Local backup metadata entry (backup.files element) held by the challenger. -/
structure LocalFileMeta where
  name : String
  hash : String
  size : Nat
  deriving Repr, DecidableEq

/-- Modelled from the spec wording of C2 for random-blocks proofs: every returned
block must be for a challenged index and carry the hash recorded in the local
backup metadata at that index. -/
def specBlocksMatchLocal (localFiles : List LocalFileMeta) (challenge : StorageChallenge)
    (pf : StorageProof) : Bool :=
  match pf.blocks with
  | none => false
  | some bs =>
    bs.all (fun b =>
      (challenge.blockIndices.contains b.index) &&
      (match localFiles.get? b.index with
       | some f => f.hash = b.hash
       | none => false))

/-- Commitment signature object { signature, publicKey } with both hex strings
decoded to byte lists. -/
structure CommitmentSig where
  signature : List Nat
  publicKey : List Nat
  deriving Repr, DecidableEq

/-- Storage commitment fields consumed by verifyCommitment; the top-level publicKey
hex string is decoded to bytes, and sig is none when commitment.signature is absent
or not an object. -/
structure StorageCommitment where
  peerId : String
  publicKey : List Nat
  storageOffered : Nat
  timestamp : Int
  expiresAt : Int
  sig : Option CommitmentSig
  deriving Repr, DecidableEq

/-- Structured form of the verifyCommitment result reasons. -/
inductive CommitmentResult where
  | valid
  | invalidSignatureFormat
  | invalidKeyLength
  | invalidSignatureLength
  | invalidSignature
  | keyMismatch
  | expired
  | offeringTooSmall
  | offeringTooLarge
  deriving Repr, DecidableEq

/-- Embeds StorageVerification.verifyCommitment. The Ed25519 check over the canonical
subset { peerId, storageOffered, timestamp, expiresAt } is the abstract parameter
sigVerify, applied to the signature bytes, that subset, and the signing key bytes;
key and signature byte lengths must be 32 and 64. -/
def verifyCommitment (sigVerify : List Nat → String × Nat × Int × Int → List Nat → Bool)
    (now : Int) (c : StorageCommitment) : CommitmentResult :=
  match c.sig with
  | none => .invalidSignatureFormat
  | some s =>
    if s.publicKey.length ≠ 32 then .invalidKeyLength
    else if s.signature.length ≠ 64 then .invalidSignatureLength
    else if ¬ sigVerify s.signature (c.peerId, c.storageOffered, c.timestamp, c.expiresAt)
        s.publicKey then .invalidSignature
    else if s.publicKey ≠ c.publicKey then .keyMismatch
    else if now > c.expiresAt then .expired
    else if c.storageOffered < 1048576 then .offeringTooSmall
    else if c.storageOffered > 1099511627776 then .offeringTooLarge
    else .valid

/-! ## Crypto (class BackupCrypto) -/

/-- Hex digit character for a nibble, lowercase as produced by Buffer.toString hex. -/
def hexDigit (n : Nat) : Char :=
  if n < 10 then Char.ofNat (48 + n) else Char.ofNat (87 + n)

/-- Hex encoding of a byte list, two lowercase digits per byte. -/
def hexEncode (bs : List Nat) : String :=
  String.mk (bs.foldr (fun b acc => hexDigit (b / 16 % 16) :: hexDigit (b % 16) :: acc) [])

/-- Embeds BackupCrypto.generatePeerIdHash: the first 16 hex characters of the
SHA-256 of the signing public key, with SHA-256 abstract. -/
def generatePeerIdHash (sha256 : List Nat → List Nat) (publicKey : List Nat) : String :=
  (hexEncode (sha256 publicKey)).take 16

/-- Signed peer identity bundle { peerIdHash, signature, publicKey, timestamp,
version }, with the two hex strings decoded to byte lists. -/
structure SignedPeerIdentity where
  peerIdHash : String
  signature : List Nat
  publicKey : List Nat
  timestamp : Int
  version : String
  deriving Repr, DecidableEq

/-- Structured form of the verifyPeerIdHash result. -/
structure IdentityVerification where
  valid : Bool
  peerIdHash : String
  publicKey : List Nat
  deriving Repr, DecidableEq

/-- Embeds BackupCrypto.verifyPeerIdHash: version gate, one-hour freshness gate, the
detached signature check (abstract sigVerify over the hash string treated as the
signed message and the bundled key), and the recomputed truncated SHA-256 of the
bundled public key compared with the bundled hash. -/
def verifyPeerIdHash (sha256 : List Nat → List Nat)
    (sigVerify : List Nat → String → List Nat → Bool) (now : Int)
    (signedHash : SignedPeerIdentity) : IdentityVerification :=
  if signedHash.version ≠ "1.0" then
    { valid := false, peerIdHash := signedHash.peerIdHash, publicKey := signedHash.publicKey }
  else if now - signedHash.timestamp > 3600000 then
    { valid := false, peerIdHash := signedHash.peerIdHash, publicKey := signedHash.publicKey }
  else
    let isValid := sigVerify signedHash.signature signedHash.peerIdHash signedHash.publicKey
    let expectedHash := generatePeerIdHash sha256 signedHash.publicKey
    let hashMatches := expectedHash = signedHash.peerIdHash
    { valid := isValid && hashMatches
      peerIdHash := signedHash.peerIdHash, publicKey := signedHash.publicKey }

/-- Shared-secret table of BackupCrypto (peer id to derived key bytes). -/
structure CryptoState where
  sharedSecrets : List (String × List Nat)
  deriving Repr, DecidableEq

/-- Embeds BackupCrypto.encrypt: look up the shared secret (missing secret throws,
modelled as none), then prepend the fresh 24-byte nonce to the authenticated
ciphertext produced by the abstract box seal. -/
def encrypt (boxSeal : List Nat → List Nat → List Nat → List Nat) (st : CryptoState)
    (data : List Nat) (peerId : String) (nonce : List Nat) : Option (List Nat) :=
  match alistGet st.sharedSecrets peerId with
  | none => none
  | some key => some (nonce ++ boxSeal key nonce data)

/-- Embeds BackupCrypto.decrypt: look up the shared secret, require at least
nonce plus tag bytes (24 + 16), split the nonce back off, and open the remainder
with the abstract box open function (authentication failure yields none). -/
def decrypt (opn : List Nat → List Nat → List Nat → Option (List Nat)) (st : CryptoState)
    (encryptedData : List Nat) (peerId : String) : Option (List Nat) :=
  match alistGet st.sharedSecrets peerId with
  | none => none
  | some key =>
    if encryptedData.length < 24 + 16 then none
    else
      let nonce := encryptedData.take 24
      let ciphertext := encryptedData.drop 24
      opn key nonce ciphertext

/-! ## Transfer receive path (class FileTransfer) -/

/-- Active transfer state created by handleFileStart. -/
structure TransferState where
  fileName : String
  fileSize : Nat
  totalChunks : Nat
  receivedChunks : Nat
  expectedHash : String
  deriving Repr, DecidableEq

/-- Receiver-side state: the activeTransfers and receivedChunks maps. -/
structure ReceiverState where
  activeTransfers : List (String × TransferState)
  receivedChunks : List (String × List (String × List Nat))
  deriving Repr, DecidableEq

/-- Incoming file_chunk message (encryptedData base64 decoded to bytes). -/
structure FileChunkMsg where
  transferId : String
  chunkIndex : Nat
  encryptedData : List Nat
  chunkHash : String
  deriving Repr, DecidableEq

/-- Status of the chunk_ack reply. -/
inductive AckStatus where
  | received
  | error
  deriving Repr, DecidableEq

/-- Outgoing chunk_ack message. -/
structure ChunkAck where
  transferId : String
  chunkIndex : Nat
  status : AckStatus
  deriving Repr, DecidableEq

/-- Chunk map key for an index (JS Map keys compare the raw index; a string key
keeps the association-list helpers uniform). -/
def chunkKey (i : Nat) : String := toString i

/-- Embeds FileTransfer.handleFileChunk. decryptFn stands for
this.crypto.decrypt(buffer, peerId) and hashData for the SHA-256 hex of a byte list;
a decryption exception, a hash mismatch, or a missing chunk map each land in the
catch block, which sends a chunk_ack with status error. A missing transfer record
throws only after the chunk was stored, as in the source, where chunks.set precedes
transfer.receivedChunks increment. -/
def handleFileChunk (hashData : List Nat → String)
    (decryptFn : List Nat → String → Option (List Nat)) (st : ReceiverState)
    (msg : FileChunkMsg) (peerId : String) : ReceiverState × ChunkAck :=
  let errAck : ChunkAck := { transferId := msg.transferId, chunkIndex := msg.chunkIndex
                             status := .error }
  match decryptFn msg.encryptedData peerId with
  | none => (st, errAck)
  | some decryptedChunk =>
    if hashData decryptedChunk ≠ msg.chunkHash then (st, errAck)
    else
      match alistGet st.receivedChunks msg.transferId with
      | none => (st, errAck)
      | some chunkMap =>
        let storedMap := alistSet chunkMap (chunkKey msg.chunkIndex) decryptedChunk
        let st₁ := { st with receivedChunks := alistSet st.receivedChunks msg.transferId storedMap }
        match alistGet st₁.activeTransfers msg.transferId with
        | none => (st₁, errAck)
        | some transfer =>
          let transfer₁ := { transfer with receivedChunks := transfer.receivedChunks + 1 }
          ({ st₁ with activeTransfers := alistSet st₁.activeTransfers msg.transferId transfer₁ },
           { transferId := msg.transferId, chunkIndex := msg.chunkIndex, status := .received })

/-! ## Theorems -/

/-- Helper: updateOverallScore leaves the stored overall score equal to the weighted
formula over the current counters, except when it auto-blacklists, in which case the
stored score is 0 and the formula value is below the 0.2 threshold. -/
theorem updateOverallScore_spec (r : PeerReputation) :
    (updateOverallScore r).overallScore = codeOverallFormula (updateOverallScore r) ∨
      ((updateOverallScore r).isBlacklisted = true ∧ (updateOverallScore r).overallScore = 0 ∧
        codeOverallFormula (updateOverallScore r) < 1/5) := by
  unfold updateOverallScore
  by_cases h : codeOverallFormula r < 1/5 ∧ r.isBlacklisted = false
  · right
    rw [if_pos h]
    exact ⟨rfl, rfl, h.1⟩
  · left
    rw [if_neg h]
    rfl

/-- Helper: every reputation event ends in updateOverallScore, so the same
disjunction holds after any single event. -/
theorem applyEvent_spec (r : PeerReputation) (e : RepEvent) :
    (applyEvent r e).overallScore = codeOverallFormula (applyEvent r e) ∨
      ((applyEvent r e).isBlacklisted = true ∧ (applyEvent r e).overallScore = 0 ∧
        codeOverallFormula (applyEvent r e) < 1/5) := by
  cases e <;> simp only [applyEvent] <;> exact updateOverallScore_spec _

/-- C1 (amended): for every nonempty sequence of recorded reputation events, the
stored overall-score equals 0.3 times the connection-success score
(successfulConnections over totalConnections, 0.5 when none) plus 0.2 times the
response-time score plus 0.3 times the verification score plus 0.2 times the stored
integrity score, all over the final counters — not the rolling uptime average the
claim names — except when that weighted value falls below the 0.2 auto-blacklist
threshold for a not-yet-blacklisted peer, in which case the record is blacklisted
and the stored score is 0. -/
theorem reputation_overallScore_after_events (p : String) (t0 : Int) (es : List RepEvent)
    (e : RepEvent) :
    (applyEvents (freshReputation p t0) (es ++ [e])).overallScore
        = codeOverallFormula (applyEvents (freshReputation p t0) (es ++ [e])) ∨
      ((applyEvents (freshReputation p t0) (es ++ [e])).isBlacklisted = true ∧
        (applyEvents (freshReputation p t0) (es ++ [e])).overallScore = 0 ∧
        codeOverallFormula (applyEvents (freshReputation p t0) (es ++ [e])) < 1/5) := by
  rw [applyEvents, List.foldl_append]
  simp only [List.foldl_cons, List.foldl_nil]
  exact applyEvent_spec _ _

/-- State reached by recording a single unavailable uptime sample for a new peer. -/
def uptimeOnlyState : PeerReputation :=
  applyEvent (freshReputation "peer-a" 0) (.uptime false 0)

/-- C1 (counterexample): after one unavailable uptime sample the stored overall
score is 0.6, while the formula asserted by the claim (0.3 times the rolling uptime
average of the last 50 samples plus the other three weighted components) gives 0.55:
updateOverallScore multiplies the 0.3 weight by the connection-success score, never
by the rolling uptime average. -/
theorem reputation_uptime_formula_refuted :
    uptimeOnlyState.overallScore = 3/5 ∧
    specOverallFormula uptimeOnlyState = 11/20 ∧
    uptimeOnlyState.overallScore ≠ specOverallFormula uptimeOnlyState := by
  have h1 : uptimeOnlyState.overallScore = 3/5 := by
    simp only [uptimeOnlyState, applyEvent, recordUptimeCounters, updateOverallScore,
      codeOverallFormula, connectionScore, verificationScore, calculateResponseTimeScore,
      blacklistPeer, freshReputation]
    norm_num
  have h2 : specOverallFormula uptimeOnlyState = 11/20 := by
    simp only [uptimeOnlyState, applyEvent, recordUptimeCounters, updateOverallScore,
      codeOverallFormula, connectionScore, verificationScore, calculateResponseTimeScore,
      blacklistPeer, freshReputation, specOverallFormula, specUptimeRollingAverage,
      specIntegrityScore]
    norm_num
  refine ⟨h1, h2, ?_⟩
  rw [h1, h2]
  norm_num

/-- C2 (amended): verifyProof accepts exactly when the proof carries no error and,
for random-blocks or file-hash challenges, the returned entry count equals the
challenged index count, or, for metadata proofs, a nonempty hash is present and the
nonce echoes the challenge; the returned indices and hashes are never compared with
the local backup metadata. -/
theorem verifyProof_characterization (c : StorageChallenge) (pf : StorageProof) :
    verifyProof c pf = true ↔
      strTruthy pf.err = false ∧
      ((c.ctype = "random_blocks" ∧
          ∃ bs, pf.blocks = some bs ∧ bs.length = c.blockIndices.length) ∨
       (c.ctype = "file_hash" ∧
          ∃ fl, pf.files = some fl ∧ fl.length = c.fileIndices.length) ∨
       (c.ctype = "metadata_proof" ∧ strTruthy pf.metadataHash = true ∧
          pf.nonce = c.nonce)) := by
  unfold verifyProof
  split_ifs with h1 h2 h3 h4
  · simp [h1]
  · cases hb : pf.blocks <;> simp_all [listTruthy]
  · cases hf : pf.files <;> simp_all [listTruthy]
  · simp_all
  · simp_all

/-- Local metadata of a one-file backup whose file 0 has hash aaaa. -/
def c2LocalFiles : List LocalFileMeta := [{ name := "a.txt", hash := "aaaa", size := 4 }]

/-- A random-blocks challenge for block index 0. -/
def c2Challenge : StorageChallenge :=
  { ctype := "random_blocks", blockIndices := [0], fileIndices := [], nonce := "" }

/-- A proof returning one block with a wrong index and a hash matching nothing in
the local metadata. -/
def c2Proof : StorageProof :=
  { err := none, blocks := some [{ index := 5, hash := "zzzz", size := 4 }]
    files := none, metadataHash := none, nonce := "" }

/-- C2 (counterexample): the verifier accepts a random-blocks proof whose returned
index and hash match nothing in the local backup metadata, because verifyProof only
counts the returned entries. -/
theorem verifyProof_ignores_local_metadata :
    verifyProof c2Challenge c2Proof = true ∧
    specBlocksMatchLocal c2LocalFiles c2Challenge c2Proof = false := by
  constructor <;> decide

/-- C3: a chunk_ack with status received is sent exactly when decryption succeeds,
the SHA-256 of the decrypted chunk equals the claimed chunk hash, and both receive
maps know the transfer; and whenever decryption or the hash check fails, the
receiver state is unchanged (the chunk is not stored) and the acknowledgment has
status error. -/
theorem handleFileChunk_ack_received_iff (hashData : List Nat → String)
    (decryptFn : List Nat → String → Option (List Nat)) (st : ReceiverState)
    (msg : FileChunkMsg) (peerId : String) :
    ((handleFileChunk hashData decryptFn st msg peerId).2.status = .received ↔
      (∃ pt, decryptFn msg.encryptedData peerId = some pt ∧ hashData pt = msg.chunkHash) ∧
      (∃ cm, alistGet st.receivedChunks msg.transferId = some cm) ∧
      (∃ tr, alistGet st.activeTransfers msg.transferId = some tr)) ∧
    ((∀ pt, decryptFn msg.encryptedData peerId = some pt → hashData pt ≠ msg.chunkHash) →
      (handleFileChunk hashData decryptFn st msg peerId).1 = st ∧
      (handleFileChunk hashData decryptFn st msg peerId).2.status = .error) := by
  constructor
  · cases hd : decryptFn msg.encryptedData peerId with
    | none => simp [handleFileChunk, hd]
    | some pt =>
      by_cases hh : hashData pt = msg.chunkHash
      · cases hc : alistGet st.receivedChunks msg.transferId with
        | none => simp [handleFileChunk, hd, hh, hc]
        | some cm =>
          cases ht : alistGet st.activeTransfers msg.transferId with
          | none => simp [handleFileChunk, hd, hh, hc, ht]
          | some tr => simp [handleFileChunk, hd, hh, hc, ht]
      · simp [handleFileChunk, hd, hh]
  · intro hfail
    cases hd : decryptFn msg.encryptedData peerId with
    | none => simp [handleFileChunk, hd]
    | some pt =>
      have hh := hfail pt hd
      simp [handleFileChunk, hd, hh]

/-- C3 (witness): a chunk whose decrypted hash differs from the claimed hash leaves
the receiver state unchanged and is acknowledged with status error. -/
theorem handleFileChunk_ack_received_iff_witness :
    (handleFileChunk (fun _ => "h") (fun _ _ => some [1])
        { activeTransfers := [], receivedChunks := [] }
        { transferId := "t", chunkIndex := 0, encryptedData := [5], chunkHash := "g" }
        "peer-d").1
      = { activeTransfers := [], receivedChunks := [] } ∧
    (handleFileChunk (fun _ => "h") (fun _ _ => some [1])
        { activeTransfers := [], receivedChunks := [] }
        { transferId := "t", chunkIndex := 0, encryptedData := [5], chunkHash := "g" }
        "peer-d").2.status
      = .error :=
  (handleFileChunk_ack_received_iff (fun _ => "h") (fun _ _ => some [1])
      { activeTransfers := [], receivedChunks := [] }
      { transferId := "t", chunkIndex := 0, encryptedData := [5], chunkHash := "g" }
      "peer-d").2
    (by intro pt hpt; cases hpt; decide)

/-- C4: canAcceptBackup admits exactly when consumed plus the request fits within
the global offered plus the amount already offered to the requesting peer and the
global offered is below the configured maximum; each rejection carries the matching
structured reason, ratio violation or capacity exhaustion. -/
theorem canAcceptBackup_characterization (s : AllocationState) (n : Nat) (p : String) :
    (canAcceptBackup s n p = .accepted ↔
      s.storageUsed + n ≤ s.storageOffered + getAllocatedToPeer s p ∧
        s.storageOffered < s.maxStorageOffered) ∧
    (canAcceptBackup s n p = .insufficientAllocation ↔
      ¬ (s.storageUsed + n ≤ s.storageOffered + getAllocatedToPeer s p)) ∧
    (canAcceptBackup s n p = .capacityReached ↔
      s.storageUsed + n ≤ s.storageOffered + getAllocatedToPeer s p ∧
        s.maxStorageOffered ≤ s.storageOffered) := by
  unfold canAcceptBackup
  split_ifs with h1 h2 <;> simp_all

/-- C5 (code evaluated at the failing input): one allocateStorageToPeer call from
the initial ledger state already makes validateAllocation report a used-sum
mismatch, because the operation bumps the per-peer used field without touching the
global storageUsed; and one recordStorageUsed call from the initial state makes it
report as well, since nothing stops consumed from exceeding offered. -/
theorem validateAllocation_reports_issues_after_operations :
    (validateAllocation
        (allocateStorageToPeer initialAllocationState "peer-1" 100 "backup-1" 0)).valid
      = false ∧
    (validateAllocation
        (allocateStorageToPeer initialAllocationState "peer-1" 100 "backup-1" 0)).issues
      = [.totalUsedMismatch 100 0] ∧
    (validateAllocation (recordStorageUsed initialAllocationState "peer-1" 5 0)).valid
      = false := by
  refine ⟨by decide, by decide, by decide⟩

/-- Rate limiter state right after banPeer is called at time 0 with the default
5-minute duration. -/
def bannedAtZero : RateLimiterState := banPeer p2pRateLimiter "peer-evil" 300000 0

/-- C6 (code evaluated at the failing input): one second into a 5-minute ban the
peer is still banned, yet the inbound dispatch path admits its message, because the
data handler only consults isAllowed, which never reads the ban table; isBanned is
called nowhere in the dispatch path. -/
theorem dispatch_handles_banned_peer_message :
    isBanned bannedAtZero "peer-evil" 1000 = true ∧
    (dispatchAllows bannedAtZero "peer-evil" "ping" 1000).1 = true := by
  constructor <;> decide

/-- Signature oracle accepting everything, for the boundary instances. -/
def alwaysValidSig : List Nat → String × Nat × Int × Int → List Nat → Bool :=
  fun _ _ _ => true

/-- Unexpired commitment with matching well-sized keys offering the given bytes. -/
def boundaryCommitment (bytesOffered : Nat) : StorageCommitment :=
  { peerId := "peer-c", publicKey := List.replicate 32 0, storageOffered := bytesOffered
    timestamp := 0, expiresAt := 1000
    sig := some { signature := List.replicate 64 0, publicKey := List.replicate 32 0 } }

/-- C7: verifyCommitment accepts exactly when the signature object is present with
well-sized key and signature, the Ed25519 check passes, the bundled keys match, the
commitment is unexpired and the offered bytes lie in the closed interval from one
MiB to one TiB; at the boundaries, exactly 1 MiB and exactly 1 TiB are accepted
while 1 MiB minus one byte and 1 TiB plus one byte are rejected. -/
theorem verifyCommitment_characterization_and_bounds
    (sigVerify : List Nat → String × Nat × Int × Int → List Nat → Bool)
    (now : Int) (c : StorageCommitment) :
    (verifyCommitment sigVerify now c = .valid ↔
      ∃ s, c.sig = some s ∧ s.publicKey.length = 32 ∧ s.signature.length = 64 ∧
        sigVerify s.signature (c.peerId, c.storageOffered, c.timestamp, c.expiresAt)
            s.publicKey = true ∧
        s.publicKey = c.publicKey ∧ now ≤ c.expiresAt ∧
        1048576 ≤ c.storageOffered ∧ c.storageOffered ≤ 1099511627776) ∧
    verifyCommitment alwaysValidSig 0 (boundaryCommitment 1048576) = .valid ∧
    verifyCommitment alwaysValidSig 0 (boundaryCommitment 1048575) = .offeringTooSmall ∧
    verifyCommitment alwaysValidSig 0 (boundaryCommitment 1099511627776) = .valid ∧
    verifyCommitment alwaysValidSig 0 (boundaryCommitment 1099511627777)
      = .offeringTooLarge := by
  refine ⟨?_, by decide, by decide, by decide, by decide⟩
  cases hs : c.sig with
  | none => simp [verifyCommitment, hs]
  | some s =>
    simp only [verifyCommitment, hs]
    split_ifs with h1 h2 h3 h4 h5 h6 h7 <;> simp_all

/-- C8: verifyPeerIdHash returns valid exactly when the protocol version is the
supported 1.0, the timestamp is at most one hour old, the detached signature check
passes against the bundled public key, and the bundled peer-id-hash equals the
first 16 hex characters of the SHA-256 of the bundled public key; in particular
every accepted identity satisfies that hash equation. -/
theorem verifyPeerIdHash_accepts_iff (sha256 : List Nat → List Nat)
    (sigVerify : List Nat → String → List Nat → Bool) (now : Int)
    (pid : SignedPeerIdentity) :
    (verifyPeerIdHash sha256 sigVerify now pid).valid = true ↔
      pid.version = "1.0" ∧ now - pid.timestamp ≤ 3600000 ∧
      sigVerify pid.signature pid.peerIdHash pid.publicKey = true ∧
      generatePeerIdHash sha256 pid.publicKey = pid.peerIdHash := by
  unfold verifyPeerIdHash
  split_ifs with h1 h2 <;> simp_all
  omega

/-- C9: for every shared-secret table holding a key for the peer, every plaintext,
and every box seal and open pair where open inverts seal at that key and nonce and
the sealed output carries the 16-byte tag, decrypt recovers the plaintext from the
output of encrypt: the 24-byte nonce prepended by encrypt is split back off by
decrypt before opening. -/
theorem decrypt_encrypt_roundtrip (boxSeal : List Nat → List Nat → List Nat → List Nat)
    (opn : List Nat → List Nat → List Nat → Option (List Nat)) (st : CryptoState)
    (key data nonce : List Nat) (peerId : String)
    (hsec : alistGet st.sharedSecrets peerId = some key)
    (hnonce : nonce.length = 24)
    (hlen : (boxSeal key nonce data).length = data.length + 16)
    (hopen : opn key nonce (boxSeal key nonce data) = some data) :
    encrypt boxSeal st data peerId nonce = some (nonce ++ boxSeal key nonce data) ∧
    decrypt opn st (nonce ++ boxSeal key nonce data) peerId = some data := by
  constructor
  · simp [encrypt, hsec]
  · simp only [decrypt, hsec]
    rw [if_neg (by simp [List.length_append, hnonce, hlen]; omega)]
    rw [← hnonce, List.take_left, List.drop_left]
    exact hopen

/-- Concrete box seal appending a 16-byte tag of zeros. -/
def tagSeal : List Nat → List Nat → List Nat → List Nat :=
  fun _ _ m => m ++ List.replicate 16 0

/-- Concrete box open stripping the 16-byte tag. -/
def tagOpen : List Nat → List Nat → List Nat → Option (List Nat) :=
  fun _ _ c => some (c.take (c.length - 16))

/-- Shared-secret table holding a key for peer-b. -/
def roundtripState : CryptoState := { sharedSecrets := [("peer-b", [1, 2])] }

/-- C9 (witness): the round trip evaluated with the concrete tag seal and open pair
on the plaintext 7 8 9 under a zero nonce. -/
theorem decrypt_encrypt_roundtrip_witness :
    encrypt tagSeal roundtripState [7, 8, 9] "peer-b" (List.replicate 24 0)
        = some (List.replicate 24 0 ++ tagSeal [1, 2] (List.replicate 24 0) [7, 8, 9]) ∧
    decrypt tagOpen roundtripState
        (List.replicate 24 0 ++ tagSeal [1, 2] (List.replicate 24 0) [7, 8, 9]) "peer-b"
        = some [7, 8, 9] :=
  decrypt_encrypt_roundtrip tagSeal tagOpen roundtripState [1, 2] [7, 8, 9]
    (List.replicate 24 0) "peer-b" (by decide) (by decide) (by decide) (by decide)

/-- C10: looking up a never-seen peer creates a record with overall score 0.5 and
trust level unknown, the acceptance predicate with the default threshold then
rejects it with the structured too-low reason 0.5 against 0.6, and looking up an
existing peer returns its record with the map unchanged. -/
theorem getPeerReputation_fresh_and_lookup (peers : RepMap) (p : String) (now : Int)
    (r : PeerReputation) :
    (alistGet peers p = none →
      (getPeerReputation peers p now).1.overallScore = 1/2 ∧
      (getPeerReputation peers p now).1.trustLevel = "unknown" ∧
      (isPeerAcceptable peers p none now).1 = .rejectedScoreTooLow (1/2) (3/5)) ∧
    (alistGet peers p = some r → getPeerReputation peers p now = (r, peers)) := by
  constructor
  · intro h
    refine ⟨by simp [getPeerReputation, h, freshReputation],
      by simp [getPeerReputation, h, freshReputation], ?_⟩
    simp [isPeerAcceptable, getPeerReputation, h, freshReputation]
    norm_num
  · intro h
    simp [getPeerReputation, h]

/-- C10 (witness): evaluated on the empty map for a never-seen peer and on a
one-entry map for an existing peer. -/
theorem getPeerReputation_fresh_and_lookup_witness :
    ((getPeerReputation [] "peer-x" 0).1.overallScore = 1/2 ∧
      (getPeerReputation [] "peer-x" 0).1.trustLevel = "unknown" ∧
      (isPeerAcceptable [] "peer-x" none 0).1 = .rejectedScoreTooLow (1/2) (3/5)) ∧
    getPeerReputation [("peer-y", freshReputation "peer-y" 3)] "peer-y" 7 =
      (freshReputation "peer-y" 3, [("peer-y", freshReputation "peer-y" 3)]) :=
  ⟨(getPeerReputation_fresh_and_lookup [] "peer-x" 0 (freshReputation "peer-x" 0)).1 rfl,
   (getPeerReputation_fresh_and_lookup [("peer-y", freshReputation "peer-y" 3)] "peer-y" 7
       (freshReputation "peer-y" 3)).2 (by simp [alistGet])⟩

end BackupPeer
